import Mathlib

/-!
Verification of the dynamic query-construction and session-authorization layer
of a small Express + Supabase client-records CRUD application.

The embedding follows the single server file of the repository:
- `requireAuth` middleware (guard on all `/clients` routes),
- `POST /register` and `POST /login` handlers,
- the `GET /clients` listing handler, which builds a filtered / sorted
  supabase query from the request's query parameters,
- the create / edit-form / update / delete handlers.

HTTP query and form parameters are modelled as `Option String` (absent or a
string).  JavaScript truthiness on such a value is: `none` (undefined) and
`some ""` are falsy, every non-empty string is truthy.  The external
collaborators (supabase store, bcrypt) are abstracted as explicit oracles the
handler functions consume; the handler's own store traffic is recorded as a
list of `StoreOp` so "no store read or write occurs" is a provable statement.
-/

namespace SupabaseCrud

/-- A row of the `users` table. -/
structure UserRow where
  id : Nat
  username : String
  email : String
  password_hash : String
deriving DecidableEq, Repr

/-- The minimal user projection the login handler stores in the session:
`req.session.user = { id: user.id, username: user.username, email: user.email }`.
By construction it has no password-hash field. -/
structure SessionUser where
  id : Nat
  username : String
  email : String
deriving DecidableEq, Repr

/-- `{ id: ..., username, email, password_hash }` to be inserted into `users`
by the registration handler (the store assigns the id). -/
structure NewUserRow where
  username : String
  email : String
  password_hash : String
deriving DecidableEq, Repr

/-- A row of the `client_status` lookup table. -/
structure StatusRow where
  id : Nat
  name : String
deriving DecidableEq, Repr

/-- A row of the `clients` table.  `status_id` is a nullable foreign key;
its form-level value is a string, so it is kept as `Option String` here. -/
structure ClientRow where
  id : Nat
  full_name : Option String
  phone_number : Option String
  status_id : Option String
deriving DecidableEq, Repr

/-- The body fields `{ full_name, phone_number, status_id }` destructured from
`req.body` by the create and update handlers; each may be absent. -/
structure ClientBody where
  full_name : Option String
  phone_number : Option String
  status_id : Option String
deriving DecidableEq, Repr

/-- The record sent to `insert` / `update` on the `clients` table. -/
structure NewClientRow where
  full_name : Option String
  phone_number : Option String
  status_id : Option String
deriving DecidableEq, Repr

/-- JavaScript `v || null` on a form value: `undefined` and the empty string
are falsy and become `null`; any non-empty string is kept. -/
def jsOrNull : Option String → Option String
  | none => none
  | some s => if s == "" then none else some s

/-- The payload `{ full_name, phone_number, status_id: status_id || null }`
built identically by the `POST /clients` and `PUT /clients/:id` handlers. -/
def newClientRow (b : ClientBody) : NewClientRow :=
  { full_name := b.full_name
    phone_number := b.phone_number
    status_id := jsOrNull b.status_id }

/-- The five optional query parameters of `GET /clients`:
`let { search, status, phone, sort_by, sort_order } = req.query`. -/
structure ListParams where
  search : Option String
  status : Option String
  phone : Option String
  sort_by : Option String
  sort_order : Option String
deriving DecidableEq, Repr

/-- The order clause attached to the composed clients query.
`byColumn c a` embeds `query.order(c, { ascending: a })` (and the default
branch `query.order('id')`, whose supabase default is ascending, is
`byColumn "id" true`); `byJoinedStatusName a` embeds
`query.order('client_status(name)', { ascending: a })`, i.e. ordering by the
status name projected through the join, not by the raw `status_id` column. -/
inductive OrderSpec where
  | byColumn (col : String) (ascending : Bool)
  | byJoinedStatusName (ascending : Bool)
deriving DecidableEq, Repr

/-- `true` exactly when the order clause is descending. -/
def OrderSpec.isDescending : OrderSpec → Bool
  | .byColumn _ asc => !asc
  | .byJoinedStatusName asc => !asc

/-- The composed read query the listing handler sends to the store: the three
optional conjunctive filters plus the order clause.  `searchFilter` /
`phoneFilter` hold the trimmed text of an `ilike('full_name' / 'phone_number',
'%text%')` case-insensitive substring filter; `statusFilter` holds the value of
an `eq('status_id', value)` filter. -/
structure ClientsQuery where
  searchFilter : Option String
  statusFilter : Option String
  phoneFilter : Option String
  order : OrderSpec
deriving DecidableEq, Repr

/-- JavaScript `s.trim()`: strip leading and trailing whitespace.  Written
directly over the character list so that it evaluates by kernel reduction. -/
def jsTrim (s : String) : String :=
  ⟨((s.data.dropWhile Char.isWhitespace).reverse.dropWhile Char.isWhitespace).reverse⟩

/-- `if (search && search.trim() !== '') query = query.ilike('full_name',
'%search.trim()%')`: the filter is active iff `search` is truthy (present and
non-empty) and non-blank after trimming. -/
def searchFilterOf (search : Option String) : Option String :=
  match search with
  | some s => if s != "" && jsTrim s != "" then some (jsTrim s) else none
  | none => none

/-- `if (status && status !== 'all') query = query.eq('status_id', status)`:
active iff `status` is truthy and not the sentinel `"all"`. -/
def statusFilterOf (status : Option String) : Option String :=
  match status with
  | some s => if s != "" && s != "all" then some s else none
  | none => none

/-- `if (phone && phone.trim() !== '') query = query.ilike('phone_number',
'%phone.trim()%')`: same policy as the name filter. -/
def phoneFilterOf (phone : Option String) : Option String :=
  match phone with
  | some s => if s != "" && jsTrim s != "" then some (jsTrim s) else none
  | none => none

/-- The sort branch of the listing handler.  `if (sort_by)` is a JavaScript
truthiness test, so an absent or empty `sort_by` takes the default
`query.order('id')` branch; otherwise `order = sort_order === 'desc' ? false :
true` and the key `"status"` is translated to the joined projected field
`'client_status(name)'` while any other key orders by that column directly. -/
def orderOf (sort_by sort_order : Option String) : OrderSpec :=
  match sort_by with
  | some k =>
    if k != "" then
      let order : Bool := if sort_order == some "desc" then false else true
      if k == "status" then OrderSpec.byJoinedStatusName order
      else OrderSpec.byColumn k order
    else OrderSpec.byColumn "id" true
  | none => OrderSpec.byColumn "id" true

/-- The full query composed by `GET /clients` from its parameters
(source lines 145–173). -/
def buildClientsQuery (p : ListParams) : ClientsQuery :=
  { searchFilter := searchFilterOf p.search
    statusFilter := statusFilterOf p.status
    phoneFilter := phoneFilterOf p.phone
    order := orderOf p.sort_by p.sort_order }

/-- One operation a handler issues against the supabase store.
`readStatuses` stands for the fixed query
`from('client_status').select('*').order('id')`; `readClients q` for the
composed clients query; the rest for the single-row and mutation calls. -/
inductive StoreOp where
  | readClients (q : ClientsQuery)
  | readStatuses
  | readClientById (id : String)
  | insertClient (row : NewClientRow)
  | updateClient (id : String) (row : NewClientRow)
  | deleteClient (id : String)
deriving DecidableEq, Repr

/-- The response a handler produces: `res.redirect(path)`,
`res.send(text)` (also used for `error.message`), or `res.render(view, ...)`
(render data abstracted away). -/
inductive Response where
  | redirect (path : String)
  | sendText (msg : String)
  | render (view : String)
deriving DecidableEq, Repr

/-- The store oracle: the outcome of each supabase call a `/clients` handler
can make.  `Except.error msg` models a result with a non-null `error`
(whose `message` is `msg`); mutations yield `some msg` on error, `none` on
success. -/
structure Db where
  clientsResult : ClientsQuery → Except String (List ClientRow)
  statusesResult : Except String (List StatusRow)
  clientById : String → Except String ClientRow
  insertResult : NewClientRow → Option String
  updateResult : String → NewClientRow → Option String
  deleteResult : String → Option String

/-- The `requireAuth` middleware: if `req.session.user` is unset, redirect to
`/login` and run nothing further (no store operation is issued); otherwise
`next()` — the guarded handler runs unchanged. -/
def requireAuth (sess : Option SessionUser) (next : List StoreOp × Response) :
    List StoreOp × Response :=
  match sess with
  | none => ([], Response.redirect "/login")
  | some _ => next

/-- Body of `GET /clients` (after the guard): run the composed query; on error
send `error.message`; otherwise read the statuses for the filter choices; on
error send `statusError.message`; otherwise render the listing. -/
def listClientsCore (p : ListParams) (db : Db) : List StoreOp × Response :=
  let q := buildClientsQuery p
  match db.clientsResult q with
  | .error e => ([StoreOp.readClients q], Response.sendText e)
  | .ok _ =>
    match db.statusesResult with
    | .error e => ([StoreOp.readClients q, StoreOp.readStatuses], Response.sendText e)
    | .ok _ => ([StoreOp.readClients q, StoreOp.readStatuses], Response.render "clients/index")

/-- Body of `GET /clients/new`: read the statuses; send the error message or
render the creation form. -/
def clientsNewCore (db : Db) : List StoreOp × Response :=
  match db.statusesResult with
  | .error e => ([StoreOp.readStatuses], Response.sendText e)
  | .ok _ => ([StoreOp.readStatuses], Response.render "clients/new")

/-- Body of `POST /clients`: insert `{ full_name, phone_number, status_id:
status_id || null }`; send the error message or redirect to the listing. -/
def clientsCreateCore (b : ClientBody) (db : Db) : List StoreOp × Response :=
  let row := newClientRow b
  match db.insertResult row with
  | some e => ([StoreOp.insertClient row], Response.sendText e)
  | none => ([StoreOp.insertClient row], Response.redirect "/clients")

/-- Body of `GET /clients/:id/edit`: single-row fetch of the client, then the
statuses read; each failure is sent as its own message. -/
def clientsEditFormCore (id : String) (db : Db) : List StoreOp × Response :=
  match db.clientById id with
  | .error e => ([StoreOp.readClientById id], Response.sendText e)
  | .ok _ =>
    match db.statusesResult with
    | .error e => ([StoreOp.readClientById id, StoreOp.readStatuses], Response.sendText e)
    | .ok _ => ([StoreOp.readClientById id, StoreOp.readStatuses], Response.render "clients/edit")

/-- Body of `PUT /clients/:id`: update with the same normalized payload as
create, targeting `eq('id', id)`. -/
def clientsUpdateCore (id : String) (b : ClientBody) (db : Db) :
    List StoreOp × Response :=
  let row := newClientRow b
  match db.updateResult id row with
  | some e => ([StoreOp.updateClient id row], Response.sendText e)
  | none => ([StoreOp.updateClient id row], Response.redirect "/clients")

/-- Body of `DELETE /clients/:id`. -/
def clientsDeleteCore (id : String) (db : Db) : List StoreOp × Response :=
  match db.deleteResult id with
  | some e => ([StoreOp.deleteClient id], Response.sendText e)
  | none => ([StoreOp.deleteClient id], Response.redirect "/clients")

/-- `app.get('/clients', requireAuth, ...)`. -/
def clientsIndexHandler (sess : Option SessionUser) (p : ListParams) (db : Db) :
    List StoreOp × Response :=
  requireAuth sess (listClientsCore p db)

/-- `app.get('/clients/new', requireAuth, ...)`. -/
def clientsNewHandler (sess : Option SessionUser) (db : Db) :
    List StoreOp × Response :=
  requireAuth sess (clientsNewCore db)

/-- `app.post('/clients', requireAuth, ...)`. -/
def clientsCreateHandler (sess : Option SessionUser) (b : ClientBody) (db : Db) :
    List StoreOp × Response :=
  requireAuth sess (clientsCreateCore b db)

/-- `app.get('/clients/:id/edit', requireAuth, ...)`. -/
def clientsEditFormHandler (sess : Option SessionUser) (id : String) (db : Db) :
    List StoreOp × Response :=
  requireAuth sess (clientsEditFormCore id db)

/-- `app.put('/clients/:id', requireAuth, ...)`. -/
def clientsUpdateHandler (sess : Option SessionUser) (id : String) (b : ClientBody)
    (db : Db) : List StoreOp × Response :=
  requireAuth sess (clientsUpdateCore id b db)

/-- `app.delete('/clients/:id', requireAuth, ...)`. -/
def clientsDeleteHandler (sess : Option SessionUser) (id : String) (db : Db) :
    List StoreOp × Response :=
  requireAuth sess (clientsDeleteCore id db)

/-- Outcome of `POST /login`: 500 on a store failure (`throw err`), 400
"Пользователь не найден." when no user matched, 401 "Неверный пароль." when
the bcrypt comparison failed, redirect to `/` on success. -/
inductive LoginResult where
  | storeFailure (msg : String)
  | notFound
  | invalidPassword
  | success
deriving DecidableEq, Repr

/-- The minimal projection stored in the session on successful login. -/
def projOf (u : UserRow) : SessionUser :=
  { id := u.id, username := u.username, email := u.email }

/-- `POST /login` given the result of the user query.  `verify` abstracts
`bcrypt.compare(password, user.password_hash)`.  The second component is the
session's user slot after the handler: only the success branch assigns it. -/
def loginWith (verify : String → String → Bool) (password : String)
    (queryResult : Except String (List UserRow)) (sess : Option SessionUser) :
    LoginResult × Option SessionUser :=
  match queryResult with
  | .error e => (LoginResult.storeFailure e, sess)
  | .ok users =>
    match users with
    | [] => (LoginResult.notFound, sess)
    | user :: _ =>
      if verify password user.password_hash then
        (LoginResult.success, some (projOf user))
      else (LoginResult.invalidPassword, sess)

/-- The login query `from('users').select('*').eq('email', email).limit(1)`
evaluated on the users table. -/
def usersByEmail (db : List UserRow) (email : String) : List UserRow :=
  (db.filter (fun u => u.email == email)).take 1

/-- `POST /login` against a users table on which the query succeeds. -/
def loginFromDb (verify : String → String → Bool) (email password : String)
    (db : List UserRow) (sess : Option SessionUser) :
    LoginResult × Option SessionUser :=
  loginWith verify password (Except.ok (usersByEmail db email)) sess

/-- Outcome of `POST /register`: 400 conflict, 500 on insert failure
(`throw error`), or redirect to `/login` on success. -/
inductive RegisterResult where
  | conflict
  | insertFailure (msg : String)
  | success
deriving DecidableEq, Repr

/-- `POST /register` given the result of the combined existence lookup
`or('email.eq...,username.eq...')` and the insert outcome.  The handler
destructures only `data` from the lookup (`const { data: existingUser }`), so
a failed lookup leaves `existingUser` null and the conflict test
`existingUser && existingUser.length > 0` falls through.  `hash` abstracts
`bcrypt.hash(password, 10)`.  The second component is the row sent to
`insert` (`none` when the insert was never issued). -/
def register (hash : String → String) (username email password : String)
    (lookup : Except String (List UserRow)) (insertResult : Option String) :
    RegisterResult × Option NewUserRow :=
  let existingUser : Option (List UserRow) :=
    match lookup with
    | .ok rows => some rows
    | .error _ => none
  match existingUser with
  | some (_ :: _) => (RegisterResult.conflict, none)
  | _ =>
    let password_hash := hash password
    let row : NewUserRow := { username := username, email := email, password_hash := password_hash }
    match insertResult with
    | some e => (RegisterResult.insertFailure e, some row)
    | none => (RegisterResult.success, some row)

/-- `POST /register` with the existence lookup evaluated on the users table
(succeeding at the store). -/
def registerFromDb (hash : String → String) (username email password : String)
    (db : List UserRow) (insertResult : Option String) :
    RegisterResult × Option NewUserRow :=
  register hash username email password
    (Except.ok (db.filter (fun u => u.email == email || u.username == username)))
    insertResult

/-- Session states reachable from the initial anonymous state through the two
session-writing endpoints: `POST /login` (over a fixed users table) and
`GET /logout` (`req.session.destroy`). -/
inductive ReachableSession (verify : String → String → Bool) (db : List UserRow) :
    Option SessionUser → Prop
  | init : ReachableSession verify db none
  | loginStep (email password : String) (s : Option SessionUser) :
      ReachableSession verify db s →
      ReachableSession verify db (loginFromDb verify email password db s).2
  | logoutStep (s : Option SessionUser) :
      ReachableSession verify db s → ReachableSession verify db none

/-- C1: every protected client-records operation (list, new-form, create,
edit-form, update, delete) redirects an anonymous session to `/login` with no
store read or write issued, and passes an authenticated session's request
through to the unguarded handler body unchanged. -/
theorem requireAuth_guards_client_routes :
    ∀ (p : ListParams) (db : Db) (b : ClientBody) (id : String) (u : SessionUser),
      clientsIndexHandler none p db = ([], Response.redirect "/login")
      ∧ clientsNewHandler none db = ([], Response.redirect "/login")
      ∧ clientsCreateHandler none b db = ([], Response.redirect "/login")
      ∧ clientsEditFormHandler none id db = ([], Response.redirect "/login")
      ∧ clientsUpdateHandler none id b db = ([], Response.redirect "/login")
      ∧ clientsDeleteHandler none id db = ([], Response.redirect "/login")
      ∧ clientsIndexHandler (some u) p db = listClientsCore p db
      ∧ clientsNewHandler (some u) db = clientsNewCore db
      ∧ clientsCreateHandler (some u) b db = clientsCreateCore b db
      ∧ clientsEditFormHandler (some u) id db = clientsEditFormCore id db
      ∧ clientsUpdateHandler (some u) id b db = clientsUpdateCore id b db
      ∧ clientsDeleteHandler (some u) id db = clientsDeleteCore id db :=
  fun _ _ _ _ _ =>
    ⟨rfl, rfl, rfl, rfl, rfl, rfl, rfl, rfl, rfl, rfl, rfl, rfl⟩

/-- C3: both create and update persist the payload built by `newClientRow`;
there an absent or empty status reference becomes `null` (never the empty
string) and a non-empty status reference is kept as given. -/
theorem status_reference_normalization :
    ∀ (b : ClientBody),
      ((b.status_id = none ∨ b.status_id = some "") → (newClientRow b).status_id = none)
      ∧ (∀ s, b.status_id = some s → s ≠ "" → (newClientRow b).status_id = some s)
      ∧ (newClientRow b).status_id ≠ some ""
      ∧ (∀ db, (clientsCreateCore b db).1 = [StoreOp.insertClient (newClientRow b)])
      ∧ (∀ id db, (clientsUpdateCore id b db).1 = [StoreOp.updateClient id (newClientRow b)]) := by
  intro b
  refine ⟨fun h => ?_, fun s hs hne => ?_, ?_, fun db => ?_, fun id db => ?_⟩
  · rcases h with h | h <;> simp [newClientRow, jsOrNull, h]
  · simp [newClientRow, jsOrNull, hs, hne]
  · rcases hb : b.status_id with _ | s
    · simp [newClientRow, jsOrNull, hb]
    · by_cases hse : s = "" <;> simp [newClientRow, jsOrNull, hb, hse]
  · cases h : db.insertResult (newClientRow b) <;> simp [clientsCreateCore, h]
  · cases h : db.updateResult id (newClientRow b) <;> simp [clientsUpdateCore, h]

/-- Witness for C3 at concrete inputs: an empty status reference is stored as
`null` and a non-empty one is kept. -/
theorem status_reference_normalization_witness :
    (newClientRow ⟨some "Jane Doe", some "555-1000", some ""⟩).status_id = none
    ∧ (newClientRow ⟨some "Jane Doe", some "555-1000", some "3"⟩).status_id = some "3" :=
  ⟨(status_reference_normalization _).1 (Or.inr rfl),
   (status_reference_normalization _).2.1 "3" rfl (by decide)⟩

/-- C2: the sort branch of the listing query.  A sort key `"status"` orders by
the status name projected through the join, never by the raw `status_id`
column; any other supplied sort key (a key is supplied when the parameter is a
non-empty string — the empty string is falsy in JavaScript and takes the
default branch) orders by that column directly; an absent sort key yields the
default order by `id` ascending. -/
theorem listing_sort_translation :
    ∀ (p : ListParams),
      (p.sort_by = some "status" →
        (buildClientsQuery p).order =
          OrderSpec.byJoinedStatusName (if p.sort_order == some "desc" then false else true)
        ∧ ∀ b, (buildClientsQuery p).order ≠ OrderSpec.byColumn "status_id" b)
      ∧ (∀ k, p.sort_by = some k → k ≠ "status" → k ≠ "" →
          (buildClientsQuery p).order =
            OrderSpec.byColumn k (if p.sort_order == some "desc" then false else true))
      ∧ (p.sort_by = none → (buildClientsQuery p).order = OrderSpec.byColumn "id" true) := by
  intro p
  have horder : (buildClientsQuery p).order = orderOf p.sort_by p.sort_order := rfl
  refine ⟨fun h => ?_, fun k hk hks hke => ?_, fun h => ?_⟩
  · rw [horder, h]
    exact ⟨rfl, fun b hcontra => by simp [orderOf] at hcontra⟩
  · rw [horder, hk]
    simp [orderOf, hke, hks]
  · rw [horder, h]
    rfl

/-- Witness for C2 at concrete inputs: the three sort cases at explicit
parameter values. -/
theorem listing_sort_translation_witness :
    (buildClientsQuery ⟨none, none, none, some "status", some "desc"⟩).order =
      OrderSpec.byJoinedStatusName false
    ∧ (buildClientsQuery ⟨none, none, none, some "full_name", none⟩).order =
        OrderSpec.byColumn "full_name" true
    ∧ (buildClientsQuery ⟨none, none, none, none, some "desc"⟩).order =
        OrderSpec.byColumn "id" true :=
  ⟨((listing_sort_translation ⟨none, none, none, some "status", some "desc"⟩).1 rfl).1,
   (listing_sort_translation ⟨none, none, none, some "full_name", none⟩).2.1
      "full_name" rfl (by decide) (by decide),
   (listing_sort_translation ⟨none, none, none, none, some "desc"⟩).2.2 rfl⟩

/-- C6: with a sort key supplied (non-empty, per JavaScript truthiness), the
composed order clause is descending exactly when `sort_order` is the string
`"desc"`; any other value, including an absent parameter, gives ascending. -/
theorem listing_sort_direction (p : ListParams) (k : String)
    (hsb : p.sort_by = some k) (hk : k ≠ "") :
    (buildClientsQuery p).order.isDescending = true ↔ p.sort_order = some "desc" := by
  have horder : (buildClientsQuery p).order = orderOf p.sort_by p.sort_order := rfl
  rw [horder, hsb]
  by_cases hks : k = "status" <;>
    rcases hso : p.sort_order with _ | v <;>
      simp [orderOf, hk, hks, OrderSpec.isDescending]

/-- Witness for C6 at concrete inputs: `sort_order = "desc"` turns the order
descending, and an arbitrary other value gives ascending. -/
theorem listing_sort_direction_witness :
    (buildClientsQuery ⟨none, none, none, some "id", some "desc"⟩).order.isDescending = true
    ∧ (buildClientsQuery ⟨none, none, none, some "id", some "asc"⟩).order.isDescending ≠ true :=
  ⟨(listing_sort_direction ⟨none, none, none, some "id", some "desc"⟩ "id" rfl
      (by decide)).mpr rfl,
   fun hcontra => by
    have := (listing_sort_direction ⟨none, none, none, some "id", some "asc"⟩ "id" rfl
      (by decide)).mp hcontra
    simp at this⟩

/-- C4: a blank (empty or whitespace-only) `search` parameter composes the
same query as an omitted `search`, and `status = "all"` composes the same
query as an omitted `status`; hence any store evaluation of the listing
returns the same result. -/
theorem listing_blank_params_equivalence :
    ∀ (p : ListParams) (s : String), jsTrim s = "" →
      buildClientsQuery { p with search := some s } = buildClientsQuery { p with search := none }
      ∧ buildClientsQuery { p with status := some "all" } =
          buildClientsQuery { p with status := none }
      ∧ ∀ {α : Type} (run : ClientsQuery → α),
          run (buildClientsQuery { p with search := some s }) =
            run (buildClientsQuery { p with search := none })
          ∧ run (buildClientsQuery { p with status := some "all" }) =
              run (buildClientsQuery { p with status := none }) := by
  intro p s ht
  have e1 : buildClientsQuery { p with search := some s } =
      buildClientsQuery { p with search := none } := by
    simp [buildClientsQuery, searchFilterOf, ht]
  have e2 : buildClientsQuery { p with status := some "all" } =
      buildClientsQuery { p with status := none } := by
    simp [buildClientsQuery, statusFilterOf]
  exact ⟨e1, e2, fun run => ⟨by rw [e1], by rw [e2]⟩⟩

/-- Witness for C4 at concrete inputs: the empty search string and the
`"all"` status sentinel each compose the same query as omission. -/
theorem listing_blank_params_equivalence_witness :
    buildClientsQuery ⟨some "", none, none, none, none⟩ =
      buildClientsQuery ⟨none, none, none, none, none⟩
    ∧ buildClientsQuery ⟨none, some "all", none, none, none⟩ =
        buildClientsQuery ⟨none, none, none, none, none⟩ :=
  ⟨(listing_blank_params_equivalence ⟨none, none, none, none, none⟩ "" (by decide)).1,
   (listing_blank_params_equivalence ⟨none, none, none, none, none⟩ "" (by decide)).2.1⟩

/-- Helper: the head of the login query's result is a row of the users
table. -/
theorem mem_of_usersByEmail {db : List UserRow} {email : String} {u : UserRow}
    {rest : List UserRow} (h : usersByEmail db email = u :: rest) : u ∈ db := by
  have hu : u ∈ usersByEmail db email := by rw [h]; exact List.mem_cons_self u rest
  exact List.mem_of_mem_filter (List.take_subset 1 _ hu)

/-- C5: a login with an email matching no user row fails with the not-found
outcome, a login whose matched user's stored hash does not verify fails with
the distinct invalid-password (unauthorized) outcome, and both failures leave
an anonymous session anonymous. -/
theorem login_failure_modes :
    ∀ (verify : String → String → Bool) (email password : String) (db : List UserRow),
      (db.filter (fun u => u.email == email) = [] →
        loginFromDb verify email password db none = (LoginResult.notFound, none))
      ∧ (∀ u rest, usersByEmail db email = u :: rest →
          verify password u.password_hash = false →
          loginFromDb verify email password db none = (LoginResult.invalidPassword, none))
      ∧ LoginResult.notFound ≠ LoginResult.invalidPassword := by
  intro verify email password db
  refine ⟨fun h => ?_, fun u rest hq hv => ?_, by simp⟩
  · simp [loginFromDb, loginWith, usersByEmail, h]
  · simp [loginFromDb, loginWith, hq, hv]

/-- Witness for C5 at concrete inputs: unknown email on an empty table, and a
known email with a failing password check. -/
theorem login_failure_modes_witness :
    loginFromDb (fun _ _ => false) "a@x" "pw" [] none = (LoginResult.notFound, none)
    ∧ loginFromDb (fun _ _ => false) "a@x" "pw" [⟨1, "u", "a@x", "h"⟩] none =
        (LoginResult.invalidPassword, none) :=
  ⟨(login_failure_modes (fun _ _ => false) "a@x" "pw" []).1 rfl,
   (login_failure_modes (fun _ _ => false) "a@x" "pw" [⟨1, "u", "a@x", "h"⟩]).2.1
      ⟨1, "u", "a@x", "h"⟩ [] (by decide) rfl⟩

/-- C9: a successful login stores exactly the minimal projection (identifier,
username, email) of the matched user; the projection is independent of the
password hash; and every session state reachable through login and logout over
a users table is anonymous or the minimal projection of one of its rows — so
no reachable session state carries a password hash. -/
theorem session_stores_minimal_projection :
    ∀ (verify : String → String → Bool) (db : List UserRow),
      (∀ email password u rest, usersByEmail db email = u :: rest →
        verify password u.password_hash = true →
        loginFromDb verify email password db none =
          (LoginResult.success, some ⟨u.id, u.username, u.email⟩))
      ∧ (∀ (u : UserRow) (h : String), projOf { u with password_hash := h } = projOf u)
      ∧ (∀ s, ReachableSession verify db s →
          s = none ∨ ∃ u, u ∈ db ∧ s = some (projOf u)) := by
  intro verify db
  refine ⟨fun email password u rest hq hv => ?_, fun u h => rfl, fun s hs => ?_⟩
  · simp [loginFromDb, loginWith, hq, hv, projOf]
  · induction hs with
    | init => exact Or.inl rfl
    | loginStep email password s hprev ih =>
      rcases hq : usersByEmail db email with _ | ⟨u, rest⟩
      · simpa [loginFromDb, loginWith, hq] using ih
      · rcases hv : verify password u.password_hash with _ | _
        · simpa [loginFromDb, loginWith, hq, hv] using ih
        · refine Or.inr ⟨u, mem_of_usersByEmail hq, ?_⟩
          simp [loginFromDb, loginWith, hq, hv]
    | logoutStep s hprev ih => exact Or.inl rfl

/-- Witness for C9 at concrete inputs: a successful login on a one-row table
stores exactly that row's projection. -/
theorem session_stores_minimal_projection_witness :
    loginFromDb (fun _ _ => true) "a@x" "pw" [⟨1, "u", "a@x", "h"⟩] none =
      (LoginResult.success, some ⟨1, "u", "a@x"⟩) :=
  (session_stores_minimal_projection (fun _ _ => true) [⟨1, "u", "a@x", "h"⟩]).1
    "a@x" "pw" ⟨1, "u", "a@x", "h"⟩ [] (by decide) rfl

/-- C8: registration against a users table: if some row shares the email or
the username (the single combined `or` existence query), the outcome is the
conflict rejection and no insert is issued; if no row collides, the password
is hashed (`hash` abstracts the adaptive `bcrypt.hash(password, 10)`) and the
new user row is persisted. -/
theorem register_conflict_check :
    ∀ (hash : String → String) (username email password : String)
      (db : List UserRow) (ins : Option String),
      ((∃ u, u ∈ db ∧ (u.email = email ∨ u.username = username)) →
        registerFromDb hash username email password db ins = (RegisterResult.conflict, none))
      ∧ ((∀ u, u ∈ db → u.email ≠ email ∧ u.username ≠ username) → ins = none →
          registerFromDb hash username email password db ins =
            (RegisterResult.success, some ⟨username, email, hash password⟩)) := by
  intro hash username email password db ins
  constructor
  · rintro ⟨u, hu, hcoll⟩
    have hmem : u ∈ db.filter (fun u => u.email == email || u.username == username) := by
      rw [List.mem_filter]
      refine ⟨hu, ?_⟩
      rcases hcoll with h | h <;> simp [h]
    rcases hflt : db.filter (fun u => u.email == email || u.username == username)
        with _ | ⟨v, rest⟩
    · rw [hflt] at hmem
      exact absurd hmem (List.not_mem_nil u)
    · simp [registerFromDb, register, hflt]
  · intro hnone hins
    have hflt : db.filter (fun u => u.email == email || u.username == username) = [] := by
      rw [List.filter_eq_nil_iff]
      intro u hu
      rcases hnone u hu with ⟨he, hn⟩
      simp [he, hn]
    simp [registerFromDb, register, hflt, hins]

/-- Witness for C8 at concrete inputs: a same-email row forces the conflict
outcome with no insert, and a collision-free table yields the hashed row. -/
theorem register_conflict_check_witness :
    registerFromDb (fun s => String.append s "#") "alice" "b@x" "pw"
        [⟨1, "bob", "b@x", "h"⟩] none = (RegisterResult.conflict, none)
    ∧ registerFromDb (fun s => String.append s "#") "alice" "a@x" "pw"
        [⟨1, "bob", "b@x", "h"⟩] none =
        (RegisterResult.success, some ⟨"alice", "a@x", "pw#"⟩) :=
  ⟨(register_conflict_check (fun s => String.append s "#") "alice" "b@x" "pw"
      [⟨1, "bob", "b@x", "h"⟩] none).1
      ⟨⟨1, "bob", "b@x", "h"⟩, List.mem_cons_self _ _, Or.inl rfl⟩,
   (register_conflict_check (fun s => String.append s "#") "alice" "a@x" "pw"
      [⟨1, "bob", "b@x", "h"⟩] none).2 (by decide) rfl⟩

/-- C10: when the duplicate-user lookup itself fails at the store, the
handler — which destructures only `data` and never reads the lookup's
`error` — behaves exactly as if the lookup had returned no rows: the conflict
check falls through and the hashed user row is inserted. -/
theorem register_ignores_lookup_failure :
    ∀ (hash : String → String) (username email password errMsg : String)
      (ins : Option String),
      register hash username email password (Except.error errMsg) ins =
        register hash username email password (Except.ok []) ins
      ∧ (register hash username email password (Except.error errMsg) none).2 =
          some ⟨username, email, hash password⟩
      ∧ (register hash username email password (Except.error errMsg) none).1 =
          RegisterResult.success :=
  fun _ _ _ _ _ _ => ⟨rfl, rfl, rfl⟩

/-- A store on which both the composed clients query and the status read
fail, to evaluate the listing handler on its failure path. -/
def failingDb : Db :=
  { clientsResult := fun _ => Except.error "clients query failed"
    statusesResult := Except.error "status query failed"
    clientById := fun _ => Except.error "single row failed"
    insertResult := fun _ => some "insert failed"
    updateResult := fun _ _ => some "update failed"
    deleteResult := fun _ => some "delete failed" }

/-- A store on which the clients query succeeds but the status read fails. -/
def statusFailDb : Db :=
  { clientsResult := fun _ => Except.ok []
    statusesResult := Except.error "status query failed"
    clientById := fun _ => Except.error "single row failed"
    insertResult := fun _ => some "insert failed"
    updateResult := fun _ _ => some "update failed"
    deleteResult := fun _ => some "delete failed" }

/-- Counterexample to C7: on a listing request whose main clients query fails,
the handler returns the main query's error without ever issuing the status
read, so the status read is not always performed and its failure is not
reported when the main query failed. -/
theorem listing_status_read_not_always_performed :
    StoreOp.readStatuses ∉ (listClientsCore ⟨none, none, none, none, none⟩ failingDb).1
    ∧ (listClientsCore ⟨none, none, none, none, none⟩ failingDb).2 =
        Response.sendText "clients query failed"
    ∧ (listClientsCore ⟨none, none, none, none, none⟩ failingDb).2 ≠
        Response.sendText "status query failed" := by
  refine ⟨by decide, rfl, by decide⟩

/-- C7 amended: whenever the main clients query succeeds, the second
independent read of the status collection is performed regardless of which
filters were applied and its failure is reported with its own message; when
the main query fails, the handler reports that failure and the status read is
not performed. -/
theorem listing_status_read_after_main :
    ∀ (p : ListParams) (db : Db),
      (∀ rows, db.clientsResult (buildClientsQuery p) = Except.ok rows →
        StoreOp.readStatuses ∈ (listClientsCore p db).1
        ∧ ∀ e, db.statusesResult = Except.error e →
            (listClientsCore p db).2 = Response.sendText e)
      ∧ (∀ e, db.clientsResult (buildClientsQuery p) = Except.error e →
          listClientsCore p db =
            ([StoreOp.readClients (buildClientsQuery p)], Response.sendText e)) := by
  intro p db
  constructor
  · intro rows hok
    rcases hst : db.statusesResult with e | sts
    · refine ⟨by simp [listClientsCore, hok, hst], fun e2 he2 => ?_⟩
      injection he2 with h
      subst h
      simp [listClientsCore, hok, hst]
    · refine ⟨by simp [listClientsCore, hok, hst], fun e2 he2 => ?_⟩
      simp at he2
  · intro e he
    simp [listClientsCore, he]

/-- Witness for the amended C7 at concrete inputs: with a succeeding main
query and a failing status read, the status read is issued and its own error
message is reported. -/
theorem listing_status_read_after_main_witness :
    StoreOp.readStatuses ∈ (listClientsCore ⟨none, none, none, none, none⟩ statusFailDb).1
    ∧ (listClientsCore ⟨none, none, none, none, none⟩ statusFailDb).2 =
        Response.sendText "status query failed" :=
  ⟨((listing_status_read_after_main ⟨none, none, none, none, none⟩ statusFailDb).1
      [] rfl).1,
   ((listing_status_read_after_main ⟨none, none, none, none, none⟩ statusFailDb).1
      [] rfl).2 "status query failed" rfl⟩

end SupabaseCrud
